import Mathlib

/-!
Verification of the "Misunderstanding Engine" backend: a shallow embedding of
its translator client, language detector, generative-AI client, cultural
context client, translation pipeline and the `/analyze` handler's derived
values, with theorems settling the behavioural claims about them.

Embedding conventions:
- Python `float` arithmetic is embedded as exact rational arithmetic (`ℚ`).
- Decoded JSON (`json.loads` output) is the inductive `JVal`; Python `None`
  is `JVal.null`.
- A network round-trip is an explicit `HttpOutcome` argument (the environment
  decides it); `HttpOutcome.raised` models the `requests` call itself raising
  (timeout, connection error), and a body of `none` models `.json()` raising.
- A fallible Python call finishes in `PyResult`: a normal return, the module's
  typed `TranslatorError`, or any other exception.
-/

namespace MisEngine

/-- A decoded JSON value, as `json.loads` produces it. Python `None` is
`null`. -/
inductive JVal : Type
  | null : JVal
  | bool (b : Bool) : JVal
  | num (q : ℚ) : JVal
  | str (s : String) : JVal
  | arr (elems : List JVal) : JVal
  | obj (fields : List (String × JVal)) : JVal

/-- First-match association lookup, modelling `d[k]` / `d.get(k)` on a Python
dict represented as a key-value list (Python dict keys are unique, so first
match is the match). -/
def assoc {α : Type} : List (String × α) → String → Option α
  | [], _ => none
  | (k, v) :: rest, key => if k = key then some v else assoc rest key

/-- Python `len()` of a string: its number of characters. -/
def pyLen (s : String) : ℕ := s.data.length

/-- Python `str.strip()`: drop whitespace from both ends. Embedded over the
character list so that it evaluates by kernel reduction. -/
def pyStrip (s : String) : String :=
  ⟨((s.data.dropWhile Char.isWhitespace).reverse.dropWhile Char.isWhitespace).reverse⟩

/-- Python `str.lower()` (ASCII case mapping, which covers the language codes
involved). -/
def pyLower (s : String) : String := ⟨s.data.map Char.toLower⟩

/-- Python `str.upper()` (ASCII case mapping). -/
def pyUpper (s : String) : String := ⟨s.data.map Char.toUpper⟩

/-- Python truthiness of a decoded JSON value (`if v:`). -/
def JVal.truthy : JVal → Bool
  | .null => false
  | .bool b => b
  | .num q => decide (q ≠ 0)
  | .str s => decide (s ≠ "")
  | .arr l => !l.isEmpty
  | .obj l => !l.isEmpty

/-- Is `needle` a contiguous run of the second list? (Python substring
membership on the character lists.) -/
def listIsInfix (needle : List Char) : List Char → Bool
  | [] => needle.isPrefixOf []
  | c :: rest => needle.isPrefixOf (c :: rest) || listIsInfix needle rest

/-- Python `key in v` for a string key: dict-key membership, list-element
membership (a string key only equals a string element), substring test on
strings; a `TypeError` on the other types. -/
def pyContains (key : String) : JVal → Except String Bool
  | .obj l => .ok (assoc l key).isSome
  | .arr l =>
    .ok (l.any fun v => match v with | .str s => decide (s = key) | _ => false)
  | .str s => .ok (listIsInfix key.data s.data)
  | _ => .error "TypeError: argument of type is not iterable"

/-- Python `v[key]` for a string key: dict lookup; a `TypeError` on anything
else (string and list subscripts take integers), `KeyError` when absent. -/
def pySubscript (key : String) : JVal → Except String JVal
  | .obj l =>
    match assoc l key with
    | some v => .ok v
    | none => .error "KeyError"
  | _ => .error "TypeError: indices must be integers"

/-- Python `int()` on a float value: truncation toward zero. -/
def pyInt (q : ℚ) : ℤ := if 0 ≤ q then ⌊q⌋ else ⌈q⌉

/-- Python `round()` to an integer: round-half-to-even (banker's rounding). -/
def pyRound (q : ℚ) : ℤ :=
  let f := ⌊q⌋
  let r := q - f
  if r < 1 / 2 then f
  else if 1 / 2 < r then f + 1
  else if f % 2 = 0 then f else f + 1

/-- Python `round(x, 2)`: round to 2 decimal places, ties to even. -/
def round2 (q : ℚ) : ℚ := (pyRound (q * 100) : ℚ) / 100

/-- Digits of a decimal literal to a natural number; `none` when a character
is not a digit. -/
def natOfDigits (cs : List Char) : Option ℕ :=
  cs.foldl
    (fun acc c =>
      match acc with
      | none => none
      | some a => if c.isDigit then some (a * 10 + (c.toNat - 48)) else none)
    (some 0)

/-- Python `float()` on a string: an optionally signed decimal literal with
at least one digit, surrounding whitespace ignored. Scientific notation and
the `inf`/`nan` spellings are not modelled; no claim depends on them. `none`
models `ValueError`. -/
def parsePyFloat (s : String) : Option ℚ :=
  let t := (pyStrip s).data
  let (sign, t) : ℚ × List Char :=
    match t with
    | '-' :: rest => (-1, rest)
    | '+' :: rest => (1, rest)
    | _ => (1, t)
  let intPart := t.takeWhile (· ≠ '.')
  let rest := t.dropWhile (· ≠ '.')
  let fracPart : Option (List Char) :=
    match rest with
    | [] => some []
    | '.' :: fs => if fs.contains '.' then none else some fs
    | _ => none
  match fracPart with
  | none => none
  | some fs =>
    if intPart = [] ∧ fs = [] then none
    else
      match natOfDigits intPart, natOfDigits fs with
      | some i, some f => some (sign * ((i : ℚ) + (f : ℚ) / (10 : ℚ) ^ fs.length))
      | _, _ => none

/-- Python `float()` on a decoded JSON value: numbers pass through, booleans
coerce to 0/1, numeric strings parse; everything else raises (`none`). -/
def pyFloat : JVal → Option ℚ
  | .num q => some q
  | .bool b => some (if b then 1 else 0)
  | .str s => parsePyFloat s
  | _ => none

/-- Python truthiness of an optional string (an environment variable that may
be unset or empty). -/
def optTruthy : Option String → Bool
  | none => false
  | some s => decide (s ≠ "")

/-- How a modelled Python call finishes: a normal return, the translator
module's typed `TranslatorError`, or any other exception (a `requests`
transport error, a `TypeError`, ...). -/
inductive PyResult (α : Type) : Type
  | ok (a : α) : PyResult α
  | translatorError (msg : String) : PyResult α
  | otherExc (msg : String) : PyResult α

/-- The outcome of one outbound HTTP round-trip, decided by the environment:
`raised` models the `requests` call itself raising (timeout, connection
error); `resp status body` a response whose decoded JSON body is `body`
(`none` when `.json()` raises on a non-JSON body). -/
inductive HttpOutcome : Type
  | raised (msg : String) : HttpOutcome
  | resp (status : ℕ) (body : Option JVal) : HttpOutcome

/-- A modelled call's result together with whether it performed a network
round-trip. -/
structure CallOut where
  res : PyResult JVal
  network : Bool

namespace TranslatorClient

/-- The key-probing loop of `_call_lingo_rest` (translator_client.py lines
47-53): for each well-known key present in the decoded body, return its value
when it is a string, or the value's `"translation"` entry when it is a dict
containing one (whatever that entry's type); otherwise keep probing. The
`in`/`[]` operators can raise `TypeError` on non-dict bodies. -/
def lingoProbe (j : JVal) : List String → Except String (Option JVal)
  | [] => .ok none
  | key :: rest =>
    match pyContains key j with
    | .error m => .error m
    | .ok false => lingoProbe j rest
    | .ok true =>
      match pySubscript key j with
      | .error m => .error m
      | .ok v =>
        match v with
        | .str s => .ok (some (.str s))
        | .obj fields =>
          match assoc fields "translation" with
          | some w => .ok (some w)
          | none => lingoProbe j rest
        | _ => lingoProbe j rest

/-- The last-resort scan of `_call_lingo_rest` (lines 55-58): the first
string-valued field at the top level of the decoded body. -/
def firstStringValue : List (String × JVal) → Option JVal
  | [] => none
  | (_, .str s) :: _ => some (.str s)
  | _ :: rest => firstStringValue rest

/-- `_call_lingo_rest` (translator_client.py lines 24-59). `url`/`key` are
the `LINGO_API_URL`/`LINGO_API_KEY` environment values; `h` the outcome of
the `requests.post` round-trip. Raises `TranslatorError` when credentials
are missing, the status is ≥ 400, the body is not JSON, or no field
matches; a transport-level raise or a `TypeError` from probing a non-dict
body propagates as a non-`TranslatorError` exception. -/
def call_lingo_rest (url key : Option String) (text target_lang : String)
    (source_lang : Option String) (h : HttpOutcome) : CallOut :=
  if ¬(optTruthy url = true ∧ optTruthy key = true) then
    ⟨.translatorError "Lingo.dev credentials not configured", false⟩
  else
    match h with
    | .raised m => ⟨.otherExc m, true⟩
    | .resp status body =>
      if 400 ≤ status then
        ⟨.translatorError "Lingo REST error", true⟩
      else
        match body with
        | none => ⟨.translatorError "Lingo returned non-JSON response", true⟩
        | some j =>
          match lingoProbe j ["translation", "translated_text", "result", "data"] with
          | .error m => ⟨.otherExc m, true⟩
          | .ok (some v) => ⟨.ok v, true⟩
          | .ok none =>
            match j with
            | .obj fields =>
              match firstStringValue fields with
              | some v => ⟨.ok v, true⟩
              | none => ⟨.translatorError "Unexpected Lingo response structure", true⟩
            | _ => ⟨.translatorError "Unexpected Lingo response structure", true⟩

/-- The effective source language of `_call_mymemory` (line 71): the caller's
source when it is truthy and not `"auto"`, else the pragmatic `"en"`
default. -/
def mymemorySrc (source_lang : Option String) : String :=
  match source_lang with
  | some s => if s ≠ "" ∧ s ≠ "auto" then s else "en"
  | none => "en"

/-- `_call_mymemory` (translator_client.py lines 61-92). `h` is the outcome
of the `requests.get` round-trip; `network` records whether that round-trip
happened. When the effective source equals the target (stripped,
case-insensitively) the original text is returned with no network call. -/
def call_mymemory (text target_lang : String) (source_lang : Option String)
    (h : HttpOutcome) : CallOut :=
  if text = "" then ⟨.translatorError "No text to translate", false⟩
  else
    let src := mymemorySrc source_lang
    if pyLower (pyStrip src) = pyLower (pyStrip target_lang) then ⟨.ok (.str text), false⟩
    else
      match h with
      | .raised m => ⟨.otherExc m, true⟩
      | .resp status body =>
        if 400 ≤ status then
          ⟨.translatorError "MyMemory error", true⟩
        else
          match body with
          | none => ⟨.translatorError "MyMemory returned non-JSON", true⟩
          | some j =>
            match pyContains "responseData" j with
            | .error m => ⟨.otherExc m, true⟩
            | .ok false =>
              ⟨.translatorError "MyMemory response missing translated text", true⟩
            | .ok true =>
              match pySubscript "responseData" j with
              | .error m => ⟨.otherExc m, true⟩
              | .ok (.obj rd) =>
                let tx := (assoc rd "translatedText").getD .null
                if tx.truthy then ⟨.ok tx, true⟩
                else ⟨.translatorError "MyMemory response missing translated text", true⟩
              | .ok _ =>
                ⟨.translatorError "MyMemory response missing translated text", true⟩

/-- `translate_text` (translator_client.py lines 94-113): rejects empty text
or target, prefers Lingo REST when its credentials are configured, catches
exactly `TranslatorError` from it (falling back to MyMemory), and lets any
other exception from the primary propagate. `hLingo`/`hMyMem` are the two
potential round-trips' outcomes. -/
def translate_text (url key : Option String) (text target_lang : String)
    (source_lang : Option String) (hLingo hMyMem : HttpOutcome) : PyResult JVal :=
  if text = "" then .translatorError "Empty text"
  else if target_lang = "" then .translatorError "No target language provided"
  else if optTruthy url = true ∧ optTruthy key = true then
    match (call_lingo_rest url key text target_lang source_lang hLingo).res with
    | .ok v => .ok v
    | .translatorError _ => (call_mymemory text target_lang source_lang hMyMem).res
    | .otherExc m => .otherExc m
  else (call_mymemory text target_lang source_lang hMyMem).res

end TranslatorClient

namespace LanguageDetector

/-- The external detectors `detect_language` may consult, decided by the
environment: whether the fasttext package imported, what
`fasttext.load_model(...).predict` would yield (raw top-1 label and
probability; `error` when loading or predicting raises), and what
`langdetect.detect` would yield (`error` models `LangDetectException`). -/
structure DetectorEnv where
  hasFasttext : Bool
  fasttextOutcome : Except String (String × ℚ)
  langdetectOutcome : Except Unit String

/-- What `detect_language` returned and which detectors it invoked. -/
structure Detection where
  lang : String
  confidence : ℚ
  fasttextUsed : Bool
  langdetectUsed : Bool

/-- `detect_language` (language_detector.py lines 22-54): empty or
whitespace-only text short-circuits to `("auto", 0.0)` before any detector;
otherwise the text is stripped, fasttext is tried first when available
(falling through to langdetect on any failure), and the langdetect path pairs
the detected code with the heuristic confidence
`min(0.95, 0.3 + min(1.0, len(stripped)/200))`. -/
def detect_language (text : String) (env : DetectorEnv) : Detection :=
  if text = "" ∨ pyStrip text = "" then ⟨"auto", 0, false, false⟩
  else
    let stripped := pyStrip text
    let langdetectPath (ftUsed : Bool) : Detection :=
      match env.langdetectOutcome with
      | .ok code =>
        ⟨code, min 0.95 (0.3 + min 1 ((pyLen stripped : ℚ) / 200)), ftUsed, true⟩
      | .error _ => ⟨"auto", 0, ftUsed, true⟩
    if env.hasFasttext then
      match env.fasttextOutcome with
      | .ok (label, prob) => ⟨label.replace "__label__" "", prob, true, false⟩
      | .error _ => langdetectPath true
    else langdetectPath false

end LanguageDetector

namespace GeminiClient

/-- The `CommunicationAnalysis` dict `analyze_communication` returns. Every
field other than the `float`-coerced `ambiguity_score` can carry whatever the
model's JSON held, so those are decoded JSON values. -/
structure CommAnalysis where
  emotion : JVal
  ambiguity_score : ℚ
  misunderstandings : JVal
  improved_version : JVal
  tone : JVal
  clarity_issues : JVal

/-- `_get_fallback_response` (gemini_client.py lines 153-164). -/
def get_fallback_response (text : String) : CommAnalysis where
  emotion := .str "neutral"
  ambiguity_score := 5
  misunderstandings := .arr [.str "Unable to analyze this text. Please try again."]
  improved_version :=
    .str (if text ≠ "" then text else "Unable to provide improvement suggestions.")
  tone := .str "neutral"
  clarity_issues := .arr [.str "Analysis temporarily unavailable"]

/-- The code-fence stripping of `_parse_analysis_response` (gemini_client.py
lines 119-127): what `json.loads` is handed. -/
def clean_response_text (response_text : String) : String :=
  let c1 := (pyStrip response_text).data
  let c2 := if "```json".data.isPrefixOf c1 then c1.drop 7 else c1
  let c3 := if "```".data.isPrefixOf c2 then c2.drop 3 else c2
  let c4 := if "```".data.isSuffixOf c3 then c3.take (c3.length - 3) else c3
  pyStrip ⟨c4⟩

/-- `_parse_analysis_response` (gemini_client.py lines 114-151). `loads` is
the `json.loads` oracle on the cleaned text (`none` when it raises
`JSONDecodeError`). A non-dict decode makes `result.get` raise, and a
non-coercible `ambiguity_score` makes `float` raise; both are caught by the
function's own `except` clauses, which return the fallback built from the
empty string. On a dict, each field is independently defaulted when its key
is missing. -/
def parse_analysis_response (loads : String → Option JVal)
    (response_text : String) : CommAnalysis :=
  match loads (clean_response_text response_text) with
  | none => get_fallback_response ""
  | some (.obj fields) =>
    match pyFloat ((assoc fields "ambiguity_score").getD (.num 5)) with
    | none => get_fallback_response ""
    | some q =>
      { emotion := (assoc fields "emotion").getD (.str "neutral")
        ambiguity_score := q
        misunderstandings := (assoc fields "misunderstandings").getD
          (.arr [.str "Unable to determine specific misunderstandings"])
        improved_version := (assoc fields "improved_version").getD
          (.str "Consider being more specific and direct in your communication.")
        tone := (assoc fields "tone").getD (.str "neutral")
        clarity_issues := (assoc fields "clarity_issues").getD (.arr []) }
  | some _ => get_fallback_response ""

/-- `analyze_communication` (gemini_client.py lines 42-75). `api` is the
outcome of the `generate_content` round-trip (`error` when building the
prompt, the call itself, or reading `response.text` raises); the whole body
sits in a `try` whose `except Exception` returns the fallback built from the
input text, so no exception reaches the caller. -/
def analyze_communication (text : String) (api : Except String String)
    (loads : String → Option JVal) : CommAnalysis :=
  match api with
  | .error _ => get_fallback_response text
  | .ok response_text => parse_analysis_response loads response_text

/-- Every one of the six fields is present (by construction) and not Python
`None`, the property the fallback guarantees. -/
def CommAnalysis.complete (a : CommAnalysis) : Prop :=
  a.emotion ≠ .null ∧ a.misunderstandings ≠ .null ∧ a.improved_version ≠ .null ∧
    a.tone ≠ .null ∧ a.clarity_issues ≠ .null

end GeminiClient

namespace LingoDevClient

/-- The dict `LingoDevClient.detect_language` returns. -/
structure LangInfo where
  language : String
  language_name : String
  confidence : ℚ

/-- `LingoDevClient.detect_language` (lingodev_client.py lines 28-63): a mock
that returns a constant dict and makes no network call (the commented-out
request is never issued, and nothing in the `try` body can raise). -/
def detect_language (text : String) : LangInfo :=
  ⟨"en", "English", 0.95⟩

/-- The static expressiveness table `cultural_data` of `get_cultural_context`
(lingodev_client.py lines 71-75). -/
def cultural_data : List (String × List (String × ℚ)) :=
  [("en", [("happiness", 0.6), ("sadness", 0.7), ("anger", 0.5)]),
   ("pt", [("happiness", 0.8), ("sadness", 0.6), ("anger", 0.4)]),
   ("ja", [("happiness", 0.4), ("sadness", 0.8), ("anger", 0.3)])]

/-- `cultural_data.get(lang, {}).get(emotion, 0.5)`: the tabulated
expressiveness value, 0.5 for unmapped language/emotion pairs (a `None`
language key is simply unmapped). -/
def cultural_value (lang : Option String) (emotion : String) : ℚ :=
  match lang with
  | none => 0.5
  | some l => (assoc ((assoc cultural_data l).getD []) emotion).getD 0.5

/-- The per-emotion insight description of `get_cultural_context` (lines
87-91), for a concrete source language. -/
def insightString (src target_lang emotion : String) (s_val t_val : ℚ) : String :=
  "In " ++ pyUpper target_lang ++ " cultures, expressing \x27" ++ emotion ++
    "\x27 may feel " ++
    (if t_val < s_val then "more restrained" else "more expressive") ++
    " than in " ++ pyUpper src ++ " cultures."

/-- Building the insight calls `.upper()` on the source language, which
raises `AttributeError` when that is `None`. -/
def insightText (source_lang : Option String) (target_lang emotion : String)
    (s_val t_val : ℚ) : Except String String :=
  match source_lang with
  | none => .error "AttributeError"
  | some s => .ok (insightString s target_lang emotion s_val t_val)

/-- The insight loop of `get_cultural_context` (lines 81-92): one insight per
requested emotion whose expressiveness difference strictly exceeds 0.3; the
first insight built with a `None` source raises out of the loop. -/
def buildInsights (source_lang : Option String) (target_lang : String) :
    List String → Except String (List String)
  | [] => .ok []
  | emotion :: rest =>
    let s_val := cultural_value source_lang emotion
    let t_val := cultural_value (some target_lang) emotion
    if 0.3 < |s_val - t_val| then
      match insightText source_lang target_lang emotion s_val t_val with
      | .error m => .error m
      | .ok d =>
        match buildInsights source_lang target_lang rest with
        | .error m => .error m
        | .ok tail => .ok (d :: tail)
    else buildInsights source_lang target_lang rest

/-- The dict `get_cultural_context` returns: the score key is absent (`none`)
on the exception path. -/
structure CulturalContext where
  insights : List String
  cultural_distance_score : Option ℚ

/-- `get_cultural_context` (lingodev_client.py lines 65-107). A falsy
`emotions` argument (absent or empty) is replaced by `["neutral"]`; the
aggregate score is the mean absolute expressiveness difference over the
requested emotions, rounded to 2 decimals; any exception in the body (only
the `None`-source `.upper()` can raise) yields the bare unavailable
insight. -/
def get_cultural_context (text : String) (source_lang : Option String)
    (target_lang : String) (emotions : Option (List String)) : CulturalContext :=
  let ems :=
    match emotions with
    | none => ["neutral"]
    | some [] => ["neutral"]
    | some l => l
  match buildInsights source_lang target_lang ems with
  | .error _ => ⟨["Cultural analysis unavailable."], none⟩
  | .ok ins =>
    let insights :=
      if ins = [] then ["Minimal cultural interpretation differences detected."]
      else ins
    let score := round2
      (((ems.map fun e =>
          |cultural_value source_lang e - cultural_value (some target_lang) e|).sum)
        / (ems.length : ℚ))
    ⟨insights, some score⟩

end LingoDevClient

namespace Pipeline

open LanguageDetector TranslatorClient

/-- The result dict of `translate_and_package` (translation_pipeline.py lines
24-30): `translated_text` and `error` start as Python `None`
(`JVal.null`). -/
structure TranslationResult where
  detected_lang : String
  detection_confidence : ℚ
  target_lang : String
  translated_text : JVal
  error : JVal

/-- Lines 18-22 of `translate_and_package`: the source language and
confidence, from `force_source` when truthy (confidence 1.0), else from the
statistical detector. -/
def pipelineSource (text : String) (force_source : Option String)
    (env : DetectorEnv) : String × ℚ :=
  if optTruthy force_source = true then (force_source.getD "", 1)
  else
    let d := detect_language text env
    (d.lang, d.confidence)

/-- `translate_and_package` (translation_pipeline.py lines 6-40): uses
`force_source` (confidence 1.0) when truthy, else the statistical detector;
`detected_lang` falls back to `"auto"` for a falsy detected code; the
translator call's `TranslatorError` is caught into `error` as its message and
any other exception as `"Unexpected translation error: ..."`, so nothing
propagates; a successful translation lands in `translated_text`. -/
def translate_and_package (text target_lang : String)
    (force_source : Option String) (env : DetectorEnv) (url key : Option String)
    (hLingo hMyMem : HttpOutcome) : TranslationResult :=
  let sourceConf := pipelineSource text force_source env
  let source_lang := sourceConf.1
  let detected := if source_lang = "" then "auto" else source_lang
  match translate_text url key text target_lang (some source_lang) hLingo hMyMem with
  | .ok v => ⟨detected, sourceConf.2, target_lang, v, .null⟩
  | .translatorError m => ⟨detected, sourceConf.2, target_lang, .null, .str m⟩
  | .otherExc m =>
    ⟨detected, sourceConf.2, target_lang, .null,
      .str ("Unexpected translation error: " ++ m)⟩

end Pipeline

namespace App

/-- The risk label of the `/analyze` handler (app.py line 118):
`"HIGH" if ambiguity_score >= 7 else "MEDIUM" if ambiguity_score >= 4 else
"LOW"`. -/
def risk_level (ambiguity_score : ℚ) : String :=
  if 7 ≤ ambiguity_score then "HIGH"
  else if 4 ≤ ambiguity_score then "MEDIUM"
  else "LOW"

/-- The clarity improvement of the `/analyze` handler (app.py line 121):
`min(int((10 - ambiguity_score) * 10), 95)` — Python `int()` truncates toward
zero. -/
def clarity_improvement (ambiguity_score : ℚ) : ℤ :=
  min (pyInt ((10 - ambiguity_score) * 10)) 95

/-- The clarity-improvement formula as the claim words it:
`clamp(round((10 − ambiguity_score) × 10), max 95)`, with `round` to the
nearest integer. Stated for comparison with `clarity_improvement`. -/
def clarity_improvement_claimed (ambiguity_score : ℚ) : ℤ :=
  min (round ((10 - ambiguity_score) * 10)) 95

/-- Steps 1-2 of the `/analyze` handler (app.py lines 71-89): detect the
language with the LingoDev mock detector, then translate to English via
`GoogleTranslator` only when the detected language differs from `"en"`
(falling back to the original text when that call raises). `gt` is the
outcome the `GoogleTranslator` call would have; the returned flag records
whether the translation step ran at all. -/
def analyze_detect_and_translate (text : String) (gt : Except String String) :
    String × Bool :=
  let language_info := LingoDevClient.detect_language text
  let detected_lang := language_info.language
  if detected_lang ≠ "en" then
    match gt with
    | .ok t => (t, true)
    | .error _ => (text, true)
  else (text, false)

end App

/-- The detector confidence formula as the claim words it, over the raw
(unstripped) input length: `min(0.95, 0.3 + min(1.0, len(text)/200))`. Stated
for comparison with `LanguageDetector.detect_language`. -/
def specConfidence (text : String) : ℚ :=
  min 0.95 (0.3 + min 1 ((pyLen text : ℚ) / 200))

/-- The aggregate cultural distance as the claim words it: the mean of
`|source_value - target_value|` over the requested emotions, with 0.5
substituted for unmapped language/emotion pairs. -/
def specMeanDistance (src target : String) (ems : List String) : ℚ :=
  ((ems.map fun e =>
    |LingoDevClient.cultural_value (some src) e -
      LingoDevClient.cultural_value (some target) e|).sum) / (ems.length : ℚ)

/-- C3: for every ambiguity_score, the `/analyze` handler's risk label is
HIGH iff the score is ≥ 7, MEDIUM iff it is in [4, 7), and LOW iff it is
< 4, including exactly at the boundaries 4 and 7. -/
theorem C3_risk_level_boundaries (s : ℚ) :
    (App.risk_level s = "HIGH" ↔ 7 ≤ s) ∧
    (App.risk_level s = "MEDIUM" ↔ 4 ≤ s ∧ s < 7) ∧
    (App.risk_level s = "LOW" ↔ s < 4) := by
  unfold App.risk_level
  split_ifs with h1 h2
  · refine ⟨⟨fun _ => h1, fun _ => rfl⟩, ⟨fun h => absurd h (by decide), ?_⟩,
      ⟨fun h => absurd h (by decide), fun h => absurd h1 (by linarith)⟩⟩
    exact fun h => absurd h1 (by linarith [h.2])
  · refine ⟨⟨fun h => absurd h (by decide), fun h => absurd h h1⟩,
      ⟨fun _ => ⟨h2, lt_of_not_le h1⟩, fun _ => rfl⟩,
      ⟨fun h => absurd h (by decide), fun h => absurd h2 (by linarith)⟩⟩
  · refine ⟨⟨fun h => absurd h (by decide), fun h => absurd h h1⟩,
      ⟨fun h => absurd h (by decide), fun h => absurd h.1 h2⟩,
      ⟨fun _ => lt_of_not_le h2, fun _ => rfl⟩⟩

/-- C1 as stated is false on the code: at ambiguity_score 3.25 the handler's
`min(int((10 - s) * 10), 95)` truncates 67.5 to 67, while the claimed
`clamp(round((10 - s) * 10), max 95)` rounds it to 68. -/
theorem C1_counterexample :
    App.clarity_improvement (13 / 4) = 67 ∧
    App.clarity_improvement_claimed (13 / 4) = 68 ∧
    App.clarity_improvement (13 / 4) ≠ App.clarity_improvement_claimed (13 / 4) := by
  have h1 : App.clarity_improvement (13 / 4) = 67 := by
    unfold App.clarity_improvement pyInt
    rw [if_pos (by norm_num), show ((10 : ℚ) - 13 / 4) * 10 = 135 / 2 by norm_num]
    norm_num
  have h2 : App.clarity_improvement_claimed (13 / 4) = 68 := by
    unfold App.clarity_improvement_claimed
    rw [show ((10 : ℚ) - 13 / 4) * 10 = 135 / 2 by norm_num, round_eq]
    norm_num
  exact ⟨h1, h2, by rw [h1, h2]; decide⟩

/-- C1 amended: for every ambiguity_score in [0, 10], clarity_improvement
equals `min(⌊(10 - s) * 10⌋, 95)` — truncation toward zero (which is the
floor on this nonnegative range), not rounding to nearest — and is an
integer in [0, 95]; ambiguity_score 0 yields 95 (capped, not 100) and 10
yields 0. -/
theorem C1_clarity_improvement_floor (s : ℚ) (h0 : 0 ≤ s) (h10 : s ≤ 10) :
    App.clarity_improvement s = min ⌊(10 - s) * 10⌋ 95 ∧
    0 ≤ App.clarity_improvement s ∧ App.clarity_improvement s ≤ 95 ∧
    App.clarity_improvement 0 = 95 ∧ App.clarity_improvement 10 = 0 := by
  have hnn : (0 : ℚ) ≤ (10 - s) * 10 := by nlinarith
  have hInt : pyInt ((10 - s) * 10) = ⌊(10 - s) * 10⌋ := by
    unfold pyInt; rw [if_pos hnn]
  have hzero : App.clarity_improvement 0 = 95 := by
    unfold App.clarity_improvement pyInt
    rw [if_pos (by norm_num), show ((10 : ℚ) - 0) * 10 = 100 by norm_num]
    norm_num
  have hten : App.clarity_improvement 10 = 0 := by
    unfold App.clarity_improvement pyInt
    rw [if_pos (by norm_num), show ((10 : ℚ) - 10) * 10 = 0 by norm_num]
    norm_num
  refine ⟨?_, ?_, min_le_right _ _, hzero, hten⟩
  · unfold App.clarity_improvement; rw [hInt]
  · unfold App.clarity_improvement; rw [hInt]
    exact le_min (Int.floor_nonneg.mpr hnn) (by norm_num)

/-- C1 witness: the amended statement evaluated at ambiguity_score 3. -/
theorem C1_clarity_improvement_floor_witness :
    App.clarity_improvement 3 = min ⌊((10 : ℚ) - 3) * 10⌋ 95 ∧
    0 ≤ App.clarity_improvement 3 ∧ App.clarity_improvement 3 ≤ 95 ∧
    App.clarity_improvement 0 = 95 ∧ App.clarity_improvement 10 = 0 :=
  C1_clarity_improvement_floor 3 (by norm_num) (by norm_num)

/-- C6: for every empty or whitespace-only input, `detect_language` returns
`("auto", 0.0)` immediately, invoking neither the fasttext model nor the
langdetect library. -/
theorem C6_detect_language_empty (text : String)
    (env : LanguageDetector.DetectorEnv) (h : pyStrip text = "") :
    LanguageDetector.detect_language text env = ⟨"auto", 0, false, false⟩ := by
  unfold LanguageDetector.detect_language
  rw [if_pos (Or.inr h)]

/-- C6 witness: the whitespace-only input `"  \t "` with both detectors
available and willing. -/
theorem C6_detect_language_empty_witness :
    LanguageDetector.detect_language "  \t "
      ⟨true, .ok ("__label__fr", 0.9), .ok "fr"⟩ = ⟨"auto", 0, false, false⟩ :=
  C6_detect_language_empty "  \t " ⟨true, .ok ("__label__fr", 0.9), .ok "fr"⟩
    (by decide)

/-- C2 as stated is false on the code: `translate_text` catches only
`TranslatorError` from the primary, so when the primary raises a transport
exception (here a read timeout from `requests.post`) the exception
propagates to the caller and the MyMemory fallback is never attempted, even
though at this input the fallback would have succeeded. -/
theorem C2_counterexample :
    TranslatorClient.translate_text (some "https://api.lingo.example/v1")
        (some "key") "hello" "fr" none (.raised "ReadTimeout")
        (.resp 200 (some (.obj
          [("responseData", .obj [("translatedText", .str "bonjour")])])))
      = .otherExc "ReadTimeout" ∧
    (TranslatorClient.call_mymemory "hello" "fr" none
        (.resp 200 (some (.obj
          [("responseData", .obj [("translatedText", .str "bonjour")])])))).res
      = .ok (.str "bonjour") :=
  ⟨rfl, rfl⟩

/-- C2 amended: for every input on which the primary (Lingo REST) provider
raises `TranslatorError` (HTTP status ≥ 400, non-JSON body, or response
structure mismatch), `translate_text` attempts the MyMemory fallback and
returns its outcome — the primary's `TranslatorError` is logged, not
propagated. Exceptions of any other type raised while calling the primary
(transport errors) are not caught and do propagate. -/
theorem C2_fallback_on_translator_error (url key : Option String)
    (text target_lang : String) (source_lang : Option String)
    (hLingo hMyMem : HttpOutcome) (m : String)
    (htext : ¬text = "") (htarget : ¬target_lang = "")
    (hconf : optTruthy url = true ∧ optTruthy key = true)
    (hfail : (TranslatorClient.call_lingo_rest url key text target_lang
      source_lang hLingo).res = .translatorError m) :
    TranslatorClient.translate_text url key text target_lang source_lang
        hLingo hMyMem
      = (TranslatorClient.call_mymemory text target_lang source_lang hMyMem).res := by
  unfold TranslatorClient.translate_text
  rw [if_neg htext, if_neg htarget, if_pos hconf, hfail]

/-- C2 witness: a configured primary answering HTTP 500 raises
`TranslatorError`, and `translate_text` returns whatever MyMemory's
round-trip yields. -/
theorem C2_fallback_on_translator_error_witness :
    TranslatorClient.translate_text (some "https://api.lingo.example/v1")
        (some "key") "hello" "fr" none (.resp 500 none) (.raised "boom")
      = (TranslatorClient.call_mymemory "hello" "fr" none (.raised "boom")).res :=
  C2_fallback_on_translator_error (some "https://api.lingo.example/v1")
    (some "key") "hello" "fr" none (.resp 500 none) (.raised "boom")
    "Lingo REST error" (by decide) (by decide) (by decide) rfl

/-- C8: for every non-empty text, whenever the effective source language
(the caller's source, with `"en"` substituted for an absent, empty or
`"auto"` source) equals the target language case-insensitively (after
stripping), `_call_mymemory` returns the input text unchanged and performs
no network call, whatever the network would have answered. -/
theorem C8_mymemory_identity_short_circuit (text target_lang : String)
    (source_lang : Option String) (h : HttpOutcome) (htext : ¬text = "")
    (heq : pyLower (pyStrip (TranslatorClient.mymemorySrc source_lang))
      = pyLower (pyStrip target_lang)) :
    TranslatorClient.call_mymemory text target_lang source_lang h
      = ⟨.ok (.str text), false⟩ := by
  simp only [TranslatorClient.call_mymemory]
  rw [if_neg htext, if_pos heq]

/-- C8 witness: source `"en"` and target `"EN"` coincide case-insensitively,
so the text comes back unchanged with no network use even though the network
would have raised. -/
theorem C8_mymemory_identity_short_circuit_witness :
    TranslatorClient.call_mymemory "hola" "EN" (some "en") (.raised "boom")
      = ⟨.ok (.str "hola"), false⟩ :=
  C8_mymemory_identity_short_circuit "hola" "EN" (some "en") (.raised "boom")
    (by decide) (by decide)

/-- C4: `analyze_communication` is total (nothing reaches its caller), and on
every failure path — the upstream call raising, a JSON decode failure, a
non-dict decode, or the `float` coercion of the score raising — it returns
the complete fallback object, whose six fields are all present and non-null
with ambiguity_score 5.0. -/
theorem C4_analyze_total_fallback (text msg rt : String)
    (loads : String → Option JVal) (j : JVal)
    (fields : List (String × JVal)) :
    ((GeminiClient.get_fallback_response text).complete ∧
      (GeminiClient.get_fallback_response text).ambiguity_score = 5 ∧
      (GeminiClient.get_fallback_response "").complete ∧
      (GeminiClient.get_fallback_response "").ambiguity_score = 5) ∧
    GeminiClient.analyze_communication text (.error msg) loads
      = GeminiClient.get_fallback_response text ∧
    (loads (GeminiClient.clean_response_text rt) = none →
      GeminiClient.analyze_communication text (.ok rt) loads
        = GeminiClient.get_fallback_response "") ∧
    (loads (GeminiClient.clean_response_text rt) = some j →
      (∀ fs, j ≠ .obj fs) →
      GeminiClient.analyze_communication text (.ok rt) loads
        = GeminiClient.get_fallback_response "") ∧
    (loads (GeminiClient.clean_response_text rt) = some (.obj fields) →
      pyFloat ((assoc fields "ambiguity_score").getD (.num 5)) = none →
      GeminiClient.analyze_communication text (.ok rt) loads
        = GeminiClient.get_fallback_response "") := by
  refine ⟨⟨⟨?_, ?_, ?_, ?_, ?_⟩, rfl, ⟨?_, ?_, ?_, ?_, ?_⟩, rfl⟩, rfl, ?_, ?_, ?_⟩
  · exact fun h => nomatch h
  · exact fun h => nomatch h
  · exact fun h => nomatch h
  · exact fun h => nomatch h
  · exact fun h => nomatch h
  · exact fun h => nomatch h
  · exact fun h => nomatch h
  · exact fun h => nomatch h
  · exact fun h => nomatch h
  · exact fun h => nomatch h
  · intro h
    simp only [GeminiClient.analyze_communication, GeminiClient.parse_analysis_response]
    rw [h]
  · intro h hne
    simp only [GeminiClient.analyze_communication, GeminiClient.parse_analysis_response]
    rw [h]
    cases j with
    | obj fs => exact absurd rfl (hne fs)
    | null => rfl
    | bool b => rfl
    | num q => rfl
    | str s => rfl
    | arr l => rfl
  · intro h hf
    simp only [GeminiClient.analyze_communication, GeminiClient.parse_analysis_response]
    rw [h]
    simp only [hf]

/-- The result of `translate_and_package` as one case split on the
translator call it makes (definitional). -/
theorem translate_and_package_cases (text target_lang : String)
    (force_source : Option String) (env : LanguageDetector.DetectorEnv)
    (url key : Option String) (hLingo hMyMem : HttpOutcome) :
    Pipeline.translate_and_package text target_lang force_source env url key
        hLingo hMyMem
      = (match TranslatorClient.translate_text url key text target_lang
          (some (Pipeline.pipelineSource text force_source env).1) hLingo hMyMem with
        | .ok v =>
          ⟨(if (Pipeline.pipelineSource text force_source env).1 = "" then "auto"
              else (Pipeline.pipelineSource text force_source env).1),
            (Pipeline.pipelineSource text force_source env).2, target_lang, v, .null⟩
        | .translatorError m =>
          ⟨(if (Pipeline.pipelineSource text force_source env).1 = "" then "auto"
              else (Pipeline.pipelineSource text force_source env).1),
            (Pipeline.pipelineSource text force_source env).2, target_lang, .null,
            .str m⟩
        | .otherExc m =>
          ⟨(if (Pipeline.pipelineSource text force_source env).1 = "" then "auto"
              else (Pipeline.pipelineSource text force_source env).1),
            (Pipeline.pipelineSource text force_source env).2, target_lang, .null,
            .str ("Unexpected translation error: " ++ m)⟩) :=
  rfl

/-- C5 as stated is false on the code: with the primary provider configured
and answering HTTP 200 with body `{"translation": {"translation": null}}`,
the nested-dict probe of `_call_lingo_rest` returns Python `None`, so
`translate_and_package` finishes with `translated_text` and `error` both
null — the claimed exactly-one invariant fails. -/
theorem C5_counterexample :
    (Pipeline.translate_and_package "hi" "fr" none ⟨false, .error "", .ok "en"⟩
        (some "u") (some "k")
        (.resp 200 (some (.obj [("translation", .obj [("translation", .null)])])))
        (.resp 200 none)).translated_text = .null ∧
    (Pipeline.translate_and_package "hi" "fr" none ⟨false, .error "", .ok "en"⟩
        (some "u") (some "k")
        (.resp 200 (some (.obj [("translation", .obj [("translation", .null)])])))
        (.resp 200 none)).error = .null :=
  ⟨rfl, rfl⟩

/-- C5 amended: `translate_and_package` never propagates an exception — a
`TranslatorError` is captured into `error` as its message and any other
exception as an "Unexpected translation error" message, both leaving
`translated_text` null, while a successful translation lands in
`translated_text` with `error` null. Hence exactly one of (translated_text
non-null, error non-null) holds on completion, except when the translator
successfully returns Python `None` (possible through the primary provider's
nested-dict extraction), in which case both are null. -/
theorem C5_translate_and_package_fields (text target_lang : String)
    (force_source : Option String) (env : LanguageDetector.DetectorEnv)
    (url key : Option String) (hLingo hMyMem : HttpOutcome) :
    (∀ m, TranslatorClient.translate_text url key text target_lang
        (some (Pipeline.pipelineSource text force_source env).1) hLingo hMyMem
        = .translatorError m →
      (Pipeline.translate_and_package text target_lang force_source env url key
          hLingo hMyMem).translated_text = .null ∧
      (Pipeline.translate_and_package text target_lang force_source env url key
          hLingo hMyMem).error = .str m) ∧
    (∀ m, TranslatorClient.translate_text url key text target_lang
        (some (Pipeline.pipelineSource text force_source env).1) hLingo hMyMem
        = .otherExc m →
      (Pipeline.translate_and_package text target_lang force_source env url key
          hLingo hMyMem).translated_text = .null ∧
      (Pipeline.translate_and_package text target_lang force_source env url key
          hLingo hMyMem).error = .str ("Unexpected translation error: " ++ m)) ∧
    (∀ v, TranslatorClient.translate_text url key text target_lang
        (some (Pipeline.pipelineSource text force_source env).1) hLingo hMyMem
        = .ok v →
      (Pipeline.translate_and_package text target_lang force_source env url key
          hLingo hMyMem).translated_text = v ∧
      (Pipeline.translate_and_package text target_lang force_source env url key
          hLingo hMyMem).error = .null) ∧
    (TranslatorClient.translate_text url key text target_lang
        (some (Pipeline.pipelineSource text force_source env).1) hLingo hMyMem
        ≠ .ok .null →
      ((Pipeline.translate_and_package text target_lang force_source env url key
          hLingo hMyMem).translated_text = .null ↔
        (Pipeline.translate_and_package text target_lang force_source env url key
          hLingo hMyMem).error ≠ .null)) := by
  rw [translate_and_package_cases]
  rcases htx : TranslatorClient.translate_text url key text target_lang
    (some (Pipeline.pipelineSource text force_source env).1) hLingo hMyMem
    with v | m | m
  · refine ⟨?_, ?_, ?_, ?_⟩
    · intro m h
      exact nomatch h
    · intro m h
      exact nomatch h
    · intro w hw
      cases hw
      exact ⟨rfl, rfl⟩
    · intro hne
      have hv : v ≠ .null := fun hv => hne (by rw [hv])
      exact ⟨fun h => absurd h hv, fun h => absurd rfl h⟩
  · refine ⟨?_, ?_, ?_, ?_⟩
    · intro m' h
      cases h
      exact ⟨rfl, rfl⟩
    · intro m' h
      exact nomatch h
    · intro w hw
      exact nomatch hw
    · intro hne
      constructor
      · intro _ habs
        exact nomatch habs
      · intro _
        exact rfl
  · refine ⟨?_, ?_, ?_, ?_⟩
    · intro m' h
      exact nomatch h
    · intro m' h
      cases h
      exact ⟨rfl, rfl⟩
    · intro w hw
      exact nomatch hw
    · intro hne
      constructor
      · intro _ habs
        exact nomatch habs
      · intro _
        exact rfl

/-- C10: `LingoDevClient.detect_language` is a constant mock returning
English at confidence 0.95 with no network call, so the `/analyze` handler's
detected language always equals the pivot `"en"`, the `GoogleTranslator`
step never runs, and the analysed text is always the original input. -/
theorem C10_mock_detection_no_translation (text : String)
    (gt : Except String String) :
    LingoDevClient.detect_language text = ⟨"en", "English", 0.95⟩ ∧
    App.analyze_detect_and_translate text gt = (text, false) :=
  ⟨rfl, rfl⟩

/-- On the langdetect path — non-blank text, fasttext unavailable, detection
succeeding — the detector returns the detected code with the heuristic
confidence computed over the stripped text's length. -/
theorem detect_language_langdetect (text : String)
    (env : LanguageDetector.DetectorEnv) (code : String)
    (hne : ¬(text = "" ∨ pyStrip text = "")) (hft : env.hasFasttext = false)
    (hld : env.langdetectOutcome = .ok code) :
    LanguageDetector.detect_language text env
      = ⟨code, min 0.95 (0.3 + min 1 ((pyLen (pyStrip text) : ℚ) / 200)),
          false, true⟩ := by
  obtain ⟨hf, fo, lo⟩ := env
  simp only at hft hld
  subst hft
  subst hld
  simp only [LanguageDetector.detect_language]
  rw [if_neg hne]
  rfl

/-- C7 as stated is false on the code: `detect_language` strips the text
before measuring it, so for the input `"a "` (raw length 2, stripped length
1) the langdetect-path confidence is 0.3 + 1/200 = 0.305, not the claimed
formula's min(0.95, 0.3 + min(1, 2/200)) = 0.31 over the raw length. -/
theorem C7_counterexample :
    (LanguageDetector.detect_language "a " ⟨false, .error "", .ok "en"⟩).confidence
      ≠ specConfidence "a " := by
  rw [detect_language_langdetect "a " ⟨false, .error "", .ok "en"⟩ "en"
    (by decide) rfl rfl]
  unfold specConfidence
  rw [show pyLen (pyStrip "a ") = 1 from by decide,
    show pyLen "a " = 2 from by decide]
  norm_num [min_def]

/-- C7 amended: for every non-blank text on which fasttext is unavailable and
langdetect succeeds, the returned confidence equals
`min(0.95, 0.3 + min(1.0, len(text.strip()) / 200))` — the stripped length,
not the raw length — hence it is monotonically non-decreasing in the stripped
length and capped at 0.95. -/
theorem C7_confidence_formula (t1 t2 : String)
    (e1 e2 : LanguageDetector.DetectorEnv) (c1 c2 : String)
    (h1 : ¬(t1 = "" ∨ pyStrip t1 = "")) (hf1 : e1.hasFasttext = false)
    (hl1 : e1.langdetectOutcome = .ok c1)
    (h2 : ¬(t2 = "" ∨ pyStrip t2 = "")) (hf2 : e2.hasFasttext = false)
    (hl2 : e2.langdetectOutcome = .ok c2)
    (hlen : pyLen (pyStrip t1) ≤ pyLen (pyStrip t2)) :
    (LanguageDetector.detect_language t1 e1).confidence
      = min 0.95 (0.3 + min 1 ((pyLen (pyStrip t1) : ℚ) / 200)) ∧
    (LanguageDetector.detect_language t1 e1).confidence
      ≤ (LanguageDetector.detect_language t2 e2).confidence ∧
    (LanguageDetector.detect_language t1 e1).confidence ≤ 0.95 := by
  rw [detect_language_langdetect t1 e1 c1 h1 hf1 hl1,
    detect_language_langdetect t2 e2 c2 h2 hf2 hl2]
  refine ⟨rfl, ?_, min_le_left _ _⟩
  have hdiv : (pyLen (pyStrip t1) : ℚ) / 200 ≤ (pyLen (pyStrip t2) : ℚ) / 200 :=
    (div_le_div_right (by norm_num)).mpr (by exact_mod_cast hlen)
  exact min_le_min (le_refl _) (add_le_add_left (min_le_min (le_refl _) hdiv) _)

/-- C7 witness: the amended statement at texts `"ab"` and `"abcd"`. -/
theorem C7_confidence_formula_witness :
    (LanguageDetector.detect_language "ab" ⟨false, .error "", .ok "en"⟩).confidence
      = min 0.95 (0.3 + min 1 ((pyLen (pyStrip "ab") : ℚ) / 200)) ∧
    (LanguageDetector.detect_language "ab" ⟨false, .error "", .ok "en"⟩).confidence
      ≤ (LanguageDetector.detect_language "abcd"
          ⟨false, .error "", .ok "fr"⟩).confidence ∧
    (LanguageDetector.detect_language "ab" ⟨false, .error "", .ok "en"⟩).confidence
      ≤ 0.95 :=
  C7_confidence_formula "ab" "abcd" ⟨false, .error "", .ok "en"⟩
    ⟨false, .error "", .ok "fr"⟩ "en" "fr" (by decide) rfl rfl (by decide) rfl rfl
    (by decide)

/-- With a concrete (non-`None`) source language the insight loop cannot
raise: it collects exactly one insight per requested emotion whose
expressiveness difference strictly exceeds 0.3. -/
theorem buildInsights_concrete_source (src target : String) (ems : List String) :
    LingoDevClient.buildInsights (some src) target ems
      = .ok (ems.filterMap fun e =>
          if 0.3 < |LingoDevClient.cultural_value (some src) e -
              LingoDevClient.cultural_value (some target) e| then
            some (LingoDevClient.insightString src target e
              (LingoDevClient.cultural_value (some src) e)
              (LingoDevClient.cultural_value (some target) e))
          else none) := by
  induction ems with
  | nil => rfl
  | cons e rest ih =>
    simp only [LingoDevClient.buildInsights, LingoDevClient.insightText,
      List.filterMap_cons, ih]
    by_cases hc : 0.3 < |LingoDevClient.cultural_value (some src) e -
        LingoDevClient.cultural_value (some target) e|
    · rw [if_pos hc, if_pos hc]
    · rw [if_neg hc, if_neg hc]

/-- `get_cultural_context` with a concrete source language and a non-empty
emotions list, reduced to its two fields: the per-emotion insights (or the
generic message when none crosses the threshold) and the rounded mean
absolute expressiveness difference. -/
theorem get_cultural_context_eq (txt src target e0 : String)
    (rest : List String) :
    LingoDevClient.get_cultural_context txt (some src) target (some (e0 :: rest))
      = ⟨(if ((e0 :: rest).filterMap fun e =>
            if 0.3 < |LingoDevClient.cultural_value (some src) e -
                LingoDevClient.cultural_value (some target) e| then
              some (LingoDevClient.insightString src target e
                (LingoDevClient.cultural_value (some src) e)
                (LingoDevClient.cultural_value (some target) e))
            else none) = [] then
          ["Minimal cultural interpretation differences detected."]
        else (e0 :: rest).filterMap fun e =>
            if 0.3 < |LingoDevClient.cultural_value (some src) e -
                LingoDevClient.cultural_value (some target) e| then
              some (LingoDevClient.insightString src target e
                (LingoDevClient.cultural_value (some src) e)
                (LingoDevClient.cultural_value (some target) e))
            else none),
        some (round2 (specMeanDistance src target (e0 :: rest)))⟩ := by
  unfold LingoDevClient.get_cultural_context
  dsimp only
  rw [buildInsights_concrete_source]
  rfl

/-- C9: for every non-empty emotions list (and concrete source language),
the cultural distance score is the mean of the absolute expressiveness
differences over the requested emotions (0.5 for unmapped pairs), rounded to
2 decimals; a per-emotion insight is emitted exactly for the emotions whose
difference exceeds 0.3, and when none does the insights list is exactly the
one generic minimal-difference message. In particular
emotions=["happiness"], source="en" (0.6), target="ja" (0.4) yields score
0.2 and only the generic message. -/
theorem C9_cultural_context (txt src target : String) (ems : List String)
    (hne : ems ≠ []) :
    ((LingoDevClient.get_cultural_context txt (some src) target
        (some ems)).cultural_distance_score
      = some (round2 (specMeanDistance src target ems)) ∧
    ((∀ e ∈ ems, |LingoDevClient.cultural_value (some src) e -
        LingoDevClient.cultural_value (some target) e| ≤ 0.3) →
      (LingoDevClient.get_cultural_context txt (some src) target
          (some ems)).insights
        = ["Minimal cultural interpretation differences detected."]) ∧
    ((∃ e ∈ ems, 0.3 < |LingoDevClient.cultural_value (some src) e -
        LingoDevClient.cultural_value (some target) e|) →
      (LingoDevClient.get_cultural_context txt (some src) target
          (some ems)).insights
        = ems.filterMap fun e =>
            if 0.3 < |LingoDevClient.cultural_value (some src) e -
                LingoDevClient.cultural_value (some target) e| then
              some (LingoDevClient.insightString src target e
                (LingoDevClient.cultural_value (some src) e)
                (LingoDevClient.cultural_value (some target) e))
            else none)) ∧
    (LingoDevClient.cultural_value (some "en") "happiness" = 0.6 ∧
    LingoDevClient.cultural_value (some "ja") "happiness" = 0.4 ∧
    (LingoDevClient.get_cultural_context "" (some "en") "ja"
        (some ["happiness"])).cultural_distance_score = some 0.2 ∧
    (LingoDevClient.get_cultural_context "" (some "en") "ja"
        (some ["happiness"])).insights
      = ["Minimal cultural interpretation differences detected."]) := by
  have hcond : ¬((0.3 : ℚ) < |LingoDevClient.cultural_value (some "en") "happiness" -
      LingoDevClient.cultural_value (some "ja") "happiness"|) := by
    rw [show LingoDevClient.cultural_value (some "en") "happiness" = 0.6 from rfl,
      show LingoDevClient.cultural_value (some "ja") "happiness" = 0.4 from rfl,
      show (0.6 : ℚ) - 0.4 = 0.2 by norm_num,
      abs_of_nonneg (by norm_num : (0 : ℚ) ≤ 0.2)]
    norm_num
  have hfnil : (["happiness"].filterMap fun e =>
      if 0.3 < |LingoDevClient.cultural_value (some "en") e -
          LingoDevClient.cultural_value (some "ja") e| then
        some (LingoDevClient.insightString "en" "ja" e
          (LingoDevClient.cultural_value (some "en") e)
          (LingoDevClient.cultural_value (some "ja") e))
      else none) = [] := by
    simp only [List.filterMap_cons, List.filterMap_nil]
    rw [if_neg hcond]
  have hconc := get_cultural_context_eq "" "en" "ja" "happiness" []
  have hmean : specMeanDistance "en" "ja" ["happiness"] = 1 / 5 := by
    simp only [specMeanDistance, List.map_cons, List.map_nil, List.sum_cons,
      List.sum_nil, List.length_cons, List.length_nil]
    rw [show LingoDevClient.cultural_value (some "en") "happiness" = 0.6 from rfl,
      show LingoDevClient.cultural_value (some "ja") "happiness" = 0.4 from rfl,
      show (0.6 : ℚ) - 0.4 = 1 / 5 by norm_num,
      abs_of_nonneg (by norm_num : (0 : ℚ) ≤ 1 / 5)]
    norm_num
  have hround : round2 (1 / 5) = 0.2 := by
    unfold round2 pyRound
    norm_num
  refine ⟨?_, rfl, rfl, ?_, ?_⟩
  · cases ems with
    | nil => exact absurd rfl hne
    | cons e0 rest =>
      have heq := get_cultural_context_eq txt src target e0 rest
      refine ⟨by rw [heq], ?_, ?_⟩
      · intro hall
        have hnil : ((e0 :: rest).filterMap fun e =>
            if 0.3 < |LingoDevClient.cultural_value (some src) e -
                LingoDevClient.cultural_value (some target) e| then
              some (LingoDevClient.insightString src target e
                (LingoDevClient.cultural_value (some src) e)
                (LingoDevClient.cultural_value (some target) e))
            else none) = [] :=
          List.filterMap_eq_nil.mpr fun e he => if_neg (not_lt.mpr (hall e he))
        rw [heq]
        show (if _ = ([] : List String) then _ else _) = _
        rw [if_pos hnil]
      · rintro ⟨e, he, hgt⟩
        have hnn : ¬((e0 :: rest).filterMap fun e =>
            if 0.3 < |LingoDevClient.cultural_value (some src) e -
                LingoDevClient.cultural_value (some target) e| then
              some (LingoDevClient.insightString src target e
                (LingoDevClient.cultural_value (some src) e)
                (LingoDevClient.cultural_value (some target) e))
            else none) = [] := by
          intro hn
          have := List.filterMap_eq_nil.mp hn e he
          rw [if_pos hgt] at this
          exact nomatch this
        rw [heq]
        show (if _ = ([] : List String) then _ else _) = _
        rw [if_neg hnn]
  · rw [hconc]
    show some (round2 (specMeanDistance "en" "ja" ["happiness"])) = some 0.2
    rw [hmean, hround]
  · rw [hconc]
    show (if _ = ([] : List String) then _ else _) = _
    rw [if_pos hfnil]

/-- C9 witness: the statement at source "en", target "ja",
emotions=["happiness"]. -/
theorem C9_cultural_context_witness :
    ((LingoDevClient.get_cultural_context "" (some "en") "ja"
        (some ["happiness"])).cultural_distance_score
      = some (round2 (specMeanDistance "en" "ja" ["happiness"])) ∧
    ((∀ e ∈ ["happiness"], |LingoDevClient.cultural_value (some "en") e -
        LingoDevClient.cultural_value (some "ja") e| ≤ 0.3) →
      (LingoDevClient.get_cultural_context "" (some "en") "ja"
          (some ["happiness"])).insights
        = ["Minimal cultural interpretation differences detected."]) ∧
    ((∃ e ∈ ["happiness"], 0.3 < |LingoDevClient.cultural_value (some "en") e -
        LingoDevClient.cultural_value (some "ja") e|) →
      (LingoDevClient.get_cultural_context "" (some "en") "ja"
          (some ["happiness"])).insights
        = ["happiness"].filterMap fun e =>
            if 0.3 < |LingoDevClient.cultural_value (some "en") e -
                LingoDevClient.cultural_value (some "ja") e| then
              some (LingoDevClient.insightString "en" "ja" e
                (LingoDevClient.cultural_value (some "en") e)
                (LingoDevClient.cultural_value (some "ja") e))
            else none)) ∧
    (LingoDevClient.cultural_value (some "en") "happiness" = 0.6 ∧
    LingoDevClient.cultural_value (some "ja") "happiness" = 0.4 ∧
    (LingoDevClient.get_cultural_context "" (some "en") "ja"
        (some ["happiness"])).cultural_distance_score = some 0.2 ∧
    (LingoDevClient.get_cultural_context "" (some "en") "ja"
        (some ["happiness"])).insights
      = ["Minimal cultural interpretation differences detected."]) :=
  C9_cultural_context "" "en" "ja" ["happiness"] (by decide)

end MisEngine
